import Mathlib

set_option maxRecDepth 20000

/-!
Verification of the two tool plugins of this repository against their
natural-language specification:

* `libs/agno/agno/tools/hackernews.py` — `HackerNewsTools` with
  `get_top_hackernews_stories` and `get_user_details`;
* `libs/agno/agno/tools/thinking.py` — `ThinkingTools` with `think`.

The HTTP layer is modelled by an environment: each remote request either
raises an `httpx.HTTPError` (transport or `raise_for_status` failure),
raises some other exception, or yields a parsed JSON value.  Per the
external-interface section of the spec, `topstories.json` yields a list of
integer identifiers, and `item/{id}.json` and `user/{name}.json` yield a
record (a JSON object) or null.
-/

/-- A Python/JSON value as produced by `response.json()` and consumed by
`json.dumps`.  Python `None` is `null`; floats do not occur in the modelled
records. -/
inductive Json where
  | null
  | bool (b : Bool)
  | int (n : Int)
  | str (s : String)
  | arr (xs : List Json)
  | obj (fields : List (String × Json))

/-- Lookup in a Python dict modelled as an insertion-ordered association
list: the value at the first matching key, as `dict.get` / `d[k]`. -/
def dGet {α : Type} : List (String × α) → String → Option α
  | [], _ => none
  | (k, v) :: rest, key => if k = key then some v else dGet rest key

/-- Python `key in d`. -/
def dContains {α : Type} (d : List (String × α)) (key : String) : Bool :=
  (dGet d key).isSome

/-- Python `d[key] = v`: overwrite the value in place if the key exists
(keeping its position), otherwise append the new entry at the end. -/
def dSet {α : Type} : List (String × α) → String → α → List (String × α)
  | [], key, v => [(key, v)]
  | (k, w) :: rest, key, v =>
    if k = key then (key, v) :: rest else (k, w) :: dSet rest key v

/-- One hexadecimal digit, lowercase, as used by `json.dumps`. -/
def hexDig (n : Nat) : Char :=
  if n < 10 then Char.ofNat (48 + n) else Char.ofNat (87 + n)

/-- Four-digit lowercase hex rendering of a code unit, for `\uXXXX`. -/
def hex4 (n : Nat) : String :=
  String.mk [hexDig (n / 4096 % 16), hexDig (n / 256 % 16),
             hexDig (n / 16 % 16), hexDig (n % 16)]

/-- Escaping of one character by `json.dumps` with its default
`ensure_ascii=True`: the two-character escapes for quote, backslash and the
usual control characters, printable ASCII verbatim, and `\uXXXX` (with a
surrogate pair above the BMP) for everything else. -/
def escChar (c : Char) : String :=
  if c = '"' then "\\\""
  else if c = '\\' then "\\\\"
  else if c = '\n' then "\\n"
  else if c = '\r' then "\\r"
  else if c = '\t' then "\\t"
  else if c = '\x08' then "\\b"
  else if c = '\x0c' then "\\f"
  else if 32 ≤ c.toNat ∧ c.toNat ≤ 126 then String.mk [c]
  else if c.toNat < 65536 then "\\u" ++ hex4 c.toNat
  else
    let v := c.toNat - 65536
    "\\u" ++ hex4 (55296 + v / 1024) ++ "\\u" ++ hex4 (56320 + v % 1024)

/-- `json.dumps` of a Python string, quotes included. -/
def quoteStr (s : String) : String :=
  "\"" ++ String.join (s.toList.map escChar) ++ "\""

mutual

/-- `json.dumps` with the default separators `", "` and `": "`, object keys
in dict insertion order. -/
def dumps : Json → String
  | Json.null => "null"
  | Json.bool true => "true"
  | Json.bool false => "false"
  | Json.int n => toString n
  | Json.str s => quoteStr s
  | Json.arr xs => "[" ++ String.intercalate ", " (dumpsList xs) ++ "]"
  | Json.obj fs => "\x7b" ++ String.intercalate ", " (dumpsObj fs) ++ "\x7d"

def dumpsList : List Json → List String
  | [] => []
  | x :: xs => dumps x :: dumpsList xs

def dumpsObj : List (String × Json) → List String
  | [] => []
  | (k, v) :: fs => (quoteStr k ++ ": " ++ dumps v) :: dumpsObj fs

end

/-- The outcome of one `httpx.get(...)` request followed by
`raise_for_status()` (where the source calls it) and `.json()`:
`httpError` is a raised `httpx.HTTPError` (transport failure or bad
status), `otherError` any other raised exception (e.g. a JSON decode
failure), `ok` the parsed value.  The carried string is `str(e)`. -/
inductive Fetched (α : Type) where
  | httpError (detail : String)
  | otherError (detail : String)
  | ok (v : α)

/-- A story or user record: a JSON object, or `none` for remote null. -/
abbrev RemoteRecord := Option (List (String × Json))

/-- The remote endpoints seen by `get_top_hackernews_stories`:
`topstories.json` (a list of integer identifiers, per the external
interface) and `item/{id}.json`. -/
structure StoriesEnv where
  top : Fetched (List Int)
  item : Int → Fetched RemoteRecord

/-- Python `xs[:stop]` for an `int` slice bound: clamps at the length for a
large bound and counts from the end for a negative one. -/
def pySliceTo {α : Type} (xs : List α) (stop : Int) : List α :=
  if stop < 0 then xs.take (xs.length - stop.natAbs) else xs.take stop.toNat

/-- The JSON error object of the empty-top-stories branch. -/
def noStoriesObj : Json :=
  Json.obj [("error", Json.str "No stories found"),
            ("message", Json.str "No top stories available at this time.")]

/-- The JSON error object of the `except httpx.HTTPError` branch of
`get_top_hackernews_stories`. -/
def storiesNetworkErrObj (detail : String) : Json :=
  Json.obj [("error", Json.str "Network error"),
            ("message", Json.str
              ("Failed to fetch top stories due to network error: " ++ detail))]

/-- The JSON error object of the catch-all `except Exception` branch of
`get_top_hackernews_stories`. -/
def storiesUnexpectedErrObj (detail : String) : Json :=
  Json.obj [("error", Json.str "Unexpected error"),
            ("message", Json.str ("An unexpected error occurred: " ++ detail))]

/-- The per-identifier loop of `get_top_hackernews_stories`: fetch the
story, skip it when it is null or lacks a `by` key, otherwise set
`story["username"] = story["by"]` and append it to the accumulator; a
raised exception aborts the whole loop. -/
def processStories (item : Int → Fetched RemoteRecord) :
    List Int → List Json → Fetched (List Json)
  | [], acc => Fetched.ok acc.reverse
  | sid :: rest, acc =>
    match item sid with
    | Fetched.httpError d => Fetched.httpError d
    | Fetched.otherError d => Fetched.otherError d
    | Fetched.ok none => processStories item rest acc
    | Fetched.ok (some story) =>
      if dContains story "by" then
        processStories item rest
          (Json.obj (dSet story "username" ((dGet story "by").getD Json.null))
            :: acc)
      else processStories item rest acc

/-- `HackerNewsTools.get_top_hackernews_stories`: fetch the top-story
identifiers, return the no-stories error object when the list is empty,
otherwise fetch the first `num_stories` identifiers, and serialize either
the retained records or the error object of the raised exception. -/
def get_top_hackernews_stories (env : StoriesEnv) (num_stories : Int) :
    String :=
  match env.top with
  | Fetched.httpError d => dumps (storiesNetworkErrObj d)
  | Fetched.otherError d => dumps (storiesUnexpectedErrObj d)
  | Fetched.ok story_ids =>
    if story_ids.isEmpty then dumps noStoriesObj
    else
      match processStories env.item (pySliceTo story_ids num_stories) [] with
      | Fetched.ok stories => dumps (Json.arr stories)
      | Fetched.httpError d => dumps (storiesNetworkErrObj d)
      | Fetched.otherError d => dumps (storiesUnexpectedErrObj d)

/-- The remote endpoint seen by `get_user_details`: `user/{username}.json`,
a record or null.  (This source path calls no `raise_for_status`, but a
transport failure still raises `httpx.HTTPError`.) -/
structure UserEnv where
  user : String → Fetched RemoteRecord

/-- Python type names as they appear in `len()` type errors. -/
def pyTypeName : Json → String
  | Json.null => "NoneType"
  | Json.bool _ => "bool"
  | Json.int _ => "int"
  | Json.str _ => "str"
  | Json.arr _ => "list"
  | Json.obj _ => "dict"

/-- Python `len(v)` on a parsed JSON value: defined on strings, lists and
dicts, a `TypeError` otherwise (its message is the carried string). -/
def pyLen : Json → Except String Nat
  | Json.str s => Except.ok s.length
  | Json.arr xs => Except.ok xs.length
  | Json.obj fs => Except.ok fs.length
  | v => Except.error
      ("object of type \x27" ++ pyTypeName v ++ "\x27 has no len()")

/-- The JSON error object for a nonexistent user. -/
def userNotFoundObj (username : String) : Json :=
  Json.obj [("error", Json.str "User not found"),
            ("message", Json.str
              ("The user \x27" ++ username ++ "\x27 does not exist on Hacker News."))]

/-- The JSON error object of the `except httpx.HTTPError` branch of
`get_user_details`. -/
def userNetworkErrObj (detail : String) : Json :=
  Json.obj [("error", Json.str "Network error"),
            ("message", Json.str
              ("Failed to fetch user details due to network error: " ++ detail))]

/-- The JSON error object of the catch-all `except Exception` branch of
`get_user_details`. -/
def userUnexpectedErrObj (detail : String) : Json :=
  Json.obj [("error", Json.str "Unexpected error"),
            ("message", Json.str ("An unexpected error occurred: " ++ detail))]

/-- `HackerNewsTools.get_user_details`: fetch the user record, return the
not-found object on remote null, otherwise serialize the projection
`id ← user.get("user_id")`, `karma ← user.get("karma")`,
`about ← user.get("about")`,
`total_items_submitted ← len(user.get("submitted", []))`; a raised
exception (including the `TypeError` of `len` on a non-sized value) is
converted to the corresponding error object. -/
def get_user_details (env : UserEnv) (username : String) : String :=
  match env.user username with
  | Fetched.httpError d => dumps (userNetworkErrObj d)
  | Fetched.otherError d => dumps (userUnexpectedErrObj d)
  | Fetched.ok none => dumps (userNotFoundObj username)
  | Fetched.ok (some user) =>
    match pyLen ((dGet user "submitted").getD (Json.arr [])) with
    | Except.error e => dumps (userUnexpectedErrObj e)
    | Except.ok n =>
      dumps (Json.obj
        [("id", (dGet user "user_id").getD Json.null),
         ("karma", (dGet user "karma").getD Json.null),
         ("about", (dGet user "about").getD Json.null),
         ("total_items_submitted", Json.int (Int.ofNat n))])

/-- The tool names collected by `HackerNewsTools.__init__` from its flags,
in registration order. -/
def hnInitTools (enable_get_top_stories enable_get_user_details all : Bool) :
    List String :=
  let tools : List String := []
  let tools := if all || enable_get_top_stories
    then tools ++ ["get_top_hackernews_stories"] else tools
  let tools := if all || enable_get_user_details
    then tools ++ ["get_user_details"] else tools
  tools

/-- A character of the `[ \t]` class used by `textwrap.dedent`. -/
def dedentWs (c : Char) : Bool := c = ' ' || c = '\t'

/-- Longest common prefix of two character lists, as computed by the
margin-merging loop of `textwrap.dedent`. -/
def lcpChars : List Char → List Char → List Char
  | a :: as, b :: bs => if a = b then a :: lcpChars as bs else []
  | _, _ => []

/-- Split a character list at every newline, keeping empty pieces, as
`text.split("\n")` does. -/
def splitNl : List Char → List Char → List (List Char)
  | [], cur => [cur.reverse]
  | c :: cs, cur =>
    if c = '\n' then cur.reverse :: splitNl cs []
    else splitNl cs (c :: cur)

/-- Join character-list lines with newlines, undoing `splitNl`. -/
def joinNl : List (List Char) → List Char
  | [] => []
  | [l] => l
  | l :: ls => l ++ '\n' :: joinNl ls

/-- `textwrap.dedent`: blank the lines consisting solely of spaces and
tabs, compute the longest common leading whitespace of the remaining
nonempty lines, and remove it from the start of every line that carries
it. -/
def dedent (text : String) : String :=
  let lines := (splitNl text.toList []).map
    (fun l => if l ≠ [] && l.all dedentWs then [] else l)
  let indents := lines.filterMap
    (fun l => if l.any (fun c => !dedentWs c)
      then some (l.takeWhile dedentWs) else none)
  let margin := match indents with
    | [] => ([] : List Char)
    | i :: rest => rest.foldl lcpChars i
  if margin = [] then String.mk (joinNl lines)
  else
    String.mk (joinNl (lines.map
      (fun l => if margin.isPrefixOf l then l.drop margin.length else l)))

/-- A character stripped by Python `str.strip()` (the ASCII part of the
whitespace class; the modelled strings contain no other whitespace). -/
def pyStripWs (c : Char) : Bool :=
  c = ' ' || c = '\t' || c = '\n' || c = '\r' || c = '\x0b' || c = '\x0c'

/-- Python `str.strip()`. -/
def pyStrip (s : String) : String :=
  String.mk (((s.toList.dropWhile pyStripWs).reverse.dropWhile pyStripWs).reverse)

/-- The rendering step of `ThinkingTools.think`: join the thoughts, each
prefixed with `"- "`, substitute them into the 16-space-indented f-string
template headed by the unindented line `Thoughts:`, dedent and strip. -/
def renderThoughts (ts : List String) : String :=
  let thoughts := String.intercalate "\n" (ts.map (fun t => "- " ++ t))
  pyStrip (dedent ("Thoughts:\n                " ++ thoughts ++ "\n                "))

/-- A value held in the agent session state, as seen by `think`: either a
list of thought strings (the only shape `think` itself ever stores under
`"thoughts"`, and the ThoughtLog shape of the spec data model) or some
other Python object, opaque to this component. -/
inductive PyObj where
  | strList (ts : List String)
  | other (tag : Nat)
deriving DecidableEq

/-- `agent.session_state`: an insertion-ordered string-keyed mapping. -/
abbrev SessionState := List (String × PyObj)

/-- `ThinkingTools.think` acting on `agent.session_state` (`none` models a
Python `None` state).  Returns the state after the call together with
`Except.ok` of the returned log on the normal path; `Except.error ()`
models the `except Exception` branch (reached when the existing
`"thoughts"` value is not a list, so `.append` raises), whose Python
return value is the string `"Error recording thought: ..."`. -/
def think (session_state : Option SessionState) (thought : String) :
    SessionState × Except Unit String :=
  let d0 := session_state.getD []
  let d1 := if dContains d0 "thoughts" then d0
    else dSet d0 "thoughts" (PyObj.strList [])
  match dGet d1 "thoughts" with
  | some (PyObj.strList ts) =>
    (dSet d1 "thoughts" (PyObj.strList (ts ++ [thought])),
     Except.ok (renderThoughts (ts ++ [thought])))
  | _ => (d1, Except.error ())

/-- The thought log currently held in a session state: empty for a null
state or an absent (or non-list) `"thoughts"` entry. -/
def sessionThoughts (st : Option SessionState) : List String :=
  match st with
  | none => []
  | some d =>
    match dGet d "thoughts" with
    | some (PyObj.strList ts) => ts
    | _ => []

/-- What one loop iteration of `get_top_hackernews_stories` contributes for
one identifier, assuming its fetch does not raise: `none` for a skipped
record (null or without `by`), otherwise the record with `username` set. -/
def transformStory (item : Int → Fetched RemoteRecord) (sid : Int) :
    Option Json :=
  match item sid with
  | Fetched.ok (some story) =>
    if dContains story "by"
    then some (Json.obj (dSet story "username" ((dGet story "by").getD Json.null)))
    else none
  | _ => none

theorem dGet_dSet_self {α : Type} (d : List (String × α)) (key : String)
    (v : α) : dGet (dSet d key v) key = some v := by
  induction d with
  | nil => simp [dGet, dSet]
  | cons hd tl ih =>
    obtain ⟨k0, w⟩ := hd
    by_cases hk : k0 = key
    · simp [dGet, dSet, hk]
    · simp [dGet, dSet, hk, ih]

theorem dGet_dSet_ne {α : Type} (d : List (String × α)) (key k : String)
    (v : α) (h : key ≠ k) : dGet (dSet d key v) k = dGet d k := by
  induction d with
  | nil => simp [dGet, dSet, h]
  | cons hd tl ih =>
    obtain ⟨k0, w⟩ := hd
    by_cases hk : k0 = key
    · subst hk
      simp [dGet, dSet, h]
    · simp only [dSet, if_neg hk]
      by_cases hk2 : k0 = k
      · simp [dGet, hk2]
      · simp [dGet, hk2, ih]

theorem processStories_ok (item : Int → Fetched RemoteRecord) :
    ∀ (l : List Int) (acc res : List Json),
    processStories item l acc = Fetched.ok res →
    res = acc.reverse ++ l.filterMap (transformStory item) := by
  intro l
  induction l with
  | nil =>
    intro acc res h
    simp only [processStories, Fetched.ok.injEq] at h
    simp [h.symm]
  | cons sid rest ih =>
    intro acc res h
    cases hv : item sid with
    | httpError d => simp [processStories, hv] at h
    | otherError d => simp [processStories, hv] at h
    | ok record =>
      cases record with
      | none =>
        simp only [processStories, hv] at h
        simpa [List.filterMap_cons, transformStory, hv] using ih acc res h
      | some story =>
        by_cases hby : dContains story "by"
        · simp only [processStories, hv, hby, if_true] at h
          have := ih _ res h
          simp only [List.reverse_cons, List.append_assoc] at this
          simpa [List.filterMap_cons, transformStory, hv, hby] using this
        · simp only [processStories, hv, hby, if_false] at h
          simpa [List.filterMap_cons, transformStory, hv, hby] using ih acc res h

theorem processStories_httpError (item : Int → Fetched RemoteRecord)
    (d : String) :
    ∀ (pre : List Int) (fid : Int) (post : List Int) (acc : List Json),
    (∀ sid ∈ pre, ∃ v, item sid = Fetched.ok v) →
    item fid = Fetched.httpError d →
    processStories item (pre ++ fid :: post) acc = Fetched.httpError d := by
  intro pre
  induction pre with
  | nil =>
    intro fid post acc _ hf
    simp [processStories, hf]
  | cons p ps ih =>
    intro fid post acc hpre hf
    obtain ⟨v, hv⟩ := hpre p (List.mem_cons_self p ps)
    have hrest : ∀ sid ∈ ps, ∃ v, item sid = Fetched.ok v :=
      fun sid hs => hpre sid (List.mem_cons_of_mem p hs)
    cases v with
    | none => simpa [processStories, hv] using ih fid post acc hrest hf
    | some story =>
      by_cases hby : dContains story "by"
      · simpa [processStories, hv, hby] using ih fid post _ hrest hf
      · simpa [processStories, hv, hby] using ih fid post acc hrest hf

theorem think_eq_of_absent (d0 : SessionState) (t : String)
    (h : dGet d0 "thoughts" = none) :
    think (some d0) t =
      (dSet (dSet d0 "thoughts" (PyObj.strList [])) "thoughts"
         (PyObj.strList [t]),
       Except.ok (renderThoughts [t])) := by
  simp [think, dContains, h, dGet_dSet_self]

theorem think_eq_of_list (d0 : SessionState) (ts : List String) (t : String)
    (h : dGet d0 "thoughts" = some (PyObj.strList ts)) :
    think (some d0) t =
      (dSet d0 "thoughts" (PyObj.strList (ts ++ [t])),
       Except.ok (renderThoughts (ts ++ [t]))) := by
  simp [think, dContains, h]

theorem think_eq_of_other (d0 : SessionState) (g : Nat) (t : String)
    (h : dGet d0 "thoughts" = some (PyObj.other g)) :
    think (some d0) t = (d0, Except.error ()) := by
  simp [think, dContains, h]

theorem think_none_eq (t : String) :
    think none t =
      ([("thoughts", PyObj.strList [t])],
       Except.ok (renderThoughts [t])) := rfl

/-- Claim C1: the claim states that three `think` calls with "a", "b", "c"
on a fresh session state return exactly the header line `Thoughts:`
followed by `- a`, `- b`, `- c`.  The code instead returns the first
thought line still carrying the sixteen spaces of the f-string template
indentation: `textwrap.dedent` computes the longest common leading
whitespace over all lines, the unindented first template line `Thoughts:`
makes that margin empty, and so nothing is removed.  This theorem records
the actual third return value at the claim's input and that it differs
from the claimed string. -/
theorem C1_think_rendering_actual :
    (think (some (think (some (think none "a").1) "b").1) "c").2
        = Except.ok "Thoughts:\n                - a\n- b\n- c"
    ∧ "Thoughts:\n                - a\n- b\n- c" ≠ "Thoughts:\n- a\n- b\n- c" :=
  ⟨rfl, by decide⟩

/-- Claim C2 (counterexample): the claim asserts the no-stories error
object also for every `count ≤ 0`; but with a nonempty remote identifier
list and `count = 0` the code returns the empty JSON array `[]`, not the
error object. -/
theorem C2_counterexample :
    get_top_hackernews_stories
        ⟨Fetched.ok [1], fun _ => Fetched.ok (some [("by", Json.str "u")])⟩ 0
      = "[]"
    ∧ "[]" ≠ dumps noStoriesObj :=
  ⟨by decide, by decide⟩

/-- Claim C2 (amended): `get_top_hackernews_stories` returns the
`No stories found` error object whenever the remote top-story identifier
list is empty, for every count; with a nonempty identifier list and
count 0 it instead returns the empty JSON array `[]`. -/
theorem C2_amended_error_iff_empty :
    ∀ (env : StoriesEnv) (n : Int) (ids : List Int),
    (env.top = Fetched.ok [] →
      get_top_hackernews_stories env n = dumps noStoriesObj)
    ∧ (env.top = Fetched.ok ids → ids ≠ [] →
      get_top_hackernews_stories env 0 = "[]") := by
  intro env n ids
  constructor
  · intro h
    simp [get_top_hackernews_stories, h]
  · intro h hne
    have hempty : ids.isEmpty = false := by
      cases ids with
      | nil => exact absurd rfl hne
      | cons a l => rfl
    have hslice : pySliceTo ids (0 : Int) = [] := by simp [pySliceTo]
    have hr : get_top_hackernews_stories env 0 = dumps (Json.arr []) := by
      simp [get_top_hackernews_stories, h, hempty, hslice, processStories]
    rw [hr]
    decide

def c2EnvA : StoriesEnv := ⟨Fetched.ok [], fun _ => Fetched.ok none⟩

def c2EnvB : StoriesEnv :=
  ⟨Fetched.ok [5], fun _ => Fetched.ok (some [("by", Json.str "u")])⟩

/-- Claim C2 (witness): the amended claim applied to concrete
environments, one with an empty remote identifier list and one with a
single valid story and count 0. -/
theorem C2_amended_witness :
    get_top_hackernews_stories c2EnvA 7 = dumps noStoriesObj
    ∧ get_top_hackernews_stories c2EnvB 0 = "[]" :=
  ⟨(C2_amended_error_iff_empty c2EnvA 7 []).1 rfl,
   (C2_amended_error_iff_empty c2EnvB 0 [5]).2 rfl (by decide)⟩

/-- Claim C3: whenever an `httpx.HTTPError` is raised by any request of a
`get_top_hackernews_stories` run — by the top-stories request itself, or
by the story request of the first failing identifier after any prefix of
successfully fetched identifiers — the whole operation returns exactly the
serialized `Network error` object carrying that failure's detail, and in
particular no partial list of the already-fetched stories. -/
theorem C3_network_error_all_or_nothing :
    ∀ (env : StoriesEnv) (n : Int) (d : String) (ids pre post : List Int)
      (fid : Int),
    (env.top = Fetched.httpError d →
      get_top_hackernews_stories env n = dumps (storiesNetworkErrObj d))
    ∧ (env.top = Fetched.ok ids → ids ≠ [] →
      pySliceTo ids n = pre ++ fid :: post →
      (∀ sid ∈ pre, ∃ v, env.item sid = Fetched.ok v) →
      env.item fid = Fetched.httpError d →
      get_top_hackernews_stories env n = dumps (storiesNetworkErrObj d)) := by
  intro env n d ids pre post fid
  constructor
  · intro h
    simp [get_top_hackernews_stories, h]
  · intro htop hne hsplit hpre hfail
    have hempty : ids.isEmpty = false := by
      cases ids with
      | nil => exact absurd rfl hne
      | cons a l => rfl
    have hproc : processStories env.item (pySliceTo ids n) []
        = Fetched.httpError d := by
      rw [hsplit]
      exact processStories_httpError env.item d pre fid post [] hpre hfail
    simp [get_top_hackernews_stories, htop, hempty, hproc]

def c3Env : StoriesEnv :=
  ⟨Fetched.ok [1, 2, 3], fun sid =>
    if sid = 1 then Fetched.ok (some [("by", Json.str "alice")])
    else if sid = 2 then Fetched.httpError "boom"
    else Fetched.ok (some [("by", Json.str "carol")])⟩

/-- Claim C3 (witness): a run over three identifiers whose second story
request fails after the first was fetched successfully returns the
`Network error` object. -/
theorem C3_witness :
    get_top_hackernews_stories c3Env 3 = dumps (storiesNetworkErrObj "boom") :=
  (C3_network_error_all_or_nothing c3Env 3 "boom" [1, 2, 3] [1] [3] 2).2
    rfl (by decide) (by decide)
    (by
      intro sid hs
      have : sid = 1 := by simpa using hs
      subst this
      exact ⟨some [("by", Json.str "alice")], rfl⟩)
    rfl

/-- Claim C4: in every successful (non-error) run of
`get_top_hackernews_stories`, every element of the serialized array is a
JSON object (never null) that has a `by` field and a `username` field with
the same value; records fetched as null or lacking `by` were skipped, so
only such objects remain. -/
theorem C4_story_fields :
    ∀ (env : StoriesEnv) (n : Int) (ids : List Int) (stories : List Json),
    env.top = Fetched.ok ids → ids ≠ [] →
    processStories env.item (pySliceTo ids n) [] = Fetched.ok stories →
    get_top_hackernews_stories env n = dumps (Json.arr stories)
    ∧ ∀ s ∈ stories, ∃ fields v, s = Json.obj fields
        ∧ dGet fields "by" = some v ∧ dGet fields "username" = some v := by
  intro env n ids stories htop hne hproc
  have hempty : ids.isEmpty = false := by
    cases ids with
    | nil => exact absurd rfl hne
    | cons a l => rfl
  constructor
  · simp [get_top_hackernews_stories, htop, hempty, hproc]
  · intro s hs
    have heq := processStories_ok env.item _ [] stories hproc
    rw [heq] at hs
    simp only [List.reverse_nil, List.nil_append] at hs
    rcases List.mem_filterMap.mp hs with ⟨sid, _, htr⟩
    cases hv : env.item sid with
    | httpError d => simp [transformStory, hv] at htr
    | otherError d => simp [transformStory, hv] at htr
    | ok record =>
      cases record with
      | none => simp [transformStory, hv] at htr
      | some story =>
        simp only [transformStory, hv] at htr
        by_cases hby : dContains story "by"
        · rw [if_pos hby] at htr
          have hby2 : (dGet story "by").isSome := hby
          obtain ⟨v, hvby⟩ := Option.isSome_iff_exists.mp hby2
          refine ⟨dSet story "username" ((dGet story "by").getD Json.null), v,
            (Option.some.inj htr).symm, ?_, ?_⟩
          · rw [dGet_dSet_ne story "username" "by" _ (by decide)]
            exact hvby
          · rw [dGet_dSet_self story "username"
                ((dGet story "by").getD Json.null), hvby]
            simp
        · rw [if_neg hby] at htr
          exact absurd htr (by simp)

def c4Env : StoriesEnv :=
  ⟨Fetched.ok [1, 2], fun sid =>
    if sid = 1 then Fetched.ok (some [("by", Json.str "u")])
    else Fetched.ok none⟩

def c4Stories : List Json :=
  [Json.obj [("by", Json.str "u"), ("username", Json.str "u")]]

/-- Claim C4 (witness): a run with one valid story and one null story
yields an array of one object with equal `by` and `username` fields. -/
theorem C4_witness :
    get_top_hackernews_stories c4Env 2 = dumps (Json.arr c4Stories)
    ∧ ∀ s ∈ c4Stories, ∃ fields v, s = Json.obj fields
        ∧ dGet fields "by" = some v ∧ dGet fields "username" = some v :=
  C4_story_fields c4Env 2 [1, 2] c4Stories rfl (by decide) rfl

def c5Env : StoriesEnv :=
  ⟨Fetched.ok [1, 2, 3], fun sid =>
    Fetched.ok (some [("id", Json.int sid), ("by", Json.str "u")])⟩

def c5Stories : List Json :=
  [Json.obj [("id", Json.int 1), ("by", Json.str "u"), ("username", Json.str "u")],
   Json.obj [("id", Json.int 2), ("by", Json.str "u"), ("username", Json.str "u")]]

/-- Claim C5 (counterexample): the claim bounds the array length by the
count for every successful result, but for the negative count -1 over
three valid stories the code slices Python-style, fetches the first two
identifiers, and returns a two-element array, whose length is not at most
-1. -/
theorem C5_counterexample :
    get_top_hackernews_stories c5Env (-1) = dumps (Json.arr c5Stories)
    ∧ c5Stories.length = 2
    ∧ ¬ ((c5Stories.length : Int) ≤ -1) :=
  ⟨rfl, rfl, by decide⟩

/-- Claim C5 (amended): for every nonnegative count, a successful run
returns the retained records exactly in the order of the first `count`
remote identifiers (the list equals the in-order filter-map of the sliced
identifier list), and the array length is at most the count; a negative
count instead slices Python-style, dropping the last `|count|`
identifiers. -/
theorem C5_amended_order_and_length :
    ∀ (env : StoriesEnv) (n : Int) (ids : List Int) (stories : List Json),
    0 ≤ n →
    env.top = Fetched.ok ids → ids ≠ [] →
    processStories env.item (pySliceTo ids n) [] = Fetched.ok stories →
    get_top_hackernews_stories env n = dumps (Json.arr stories)
    ∧ stories = (pySliceTo ids n).filterMap (transformStory env.item)
    ∧ (stories.length : Int) ≤ n := by
  intro env n ids stories hn htop hne hproc
  have hempty : ids.isEmpty = false := by
    cases ids with
    | nil => exact absurd rfl hne
    | cons a l => rfl
  have heq := processStories_ok env.item _ [] stories hproc
  simp only [List.reverse_nil, List.nil_append] at heq
  refine ⟨by simp [get_top_hackernews_stories, htop, hempty, hproc], heq, ?_⟩
  have h1 : stories.length ≤ (pySliceTo ids n).length := by
    rw [heq]
    exact List.length_filterMap_le _ _
  have h2 : (pySliceTo ids n).length ≤ n.toNat := by
    unfold pySliceTo
    rw [if_neg (by omega : ¬ n < 0)]
    exact List.length_take_le _ _
  omega

/-- Claim C5 (witness): the amended claim applied to three valid stories
with count 2: the first two are returned in identifier order and the
length bound holds. -/
theorem C5_amended_witness :
    get_top_hackernews_stories c5Env 2 = dumps (Json.arr c5Stories)
    ∧ c5Stories = (pySliceTo [1, 2, 3] 2).filterMap (transformStory c5Env.item)
    ∧ (c5Stories.length : Int) ≤ 2 :=
  C5_amended_order_and_length c5Env 2 [1, 2, 3] c5Stories (by decide) rfl
    (by decide) rfl

/-- Claim C6: for every remote user record that is non-null (with
`submitted`, when present, a list), `get_user_details` returns the JSON
serialization of exactly the projection with `id` the record's `user_id`
or null if absent, `karma` and `about` passed through or null if absent,
and `total_items_submitted` the length of the record's `submitted` list or
0 if absent. -/
theorem C6_user_projection :
    ∀ (env : UserEnv) (username : String) (user : List (String × Json))
      (xs : List Json),
    env.user username = Fetched.ok (some user) →
    (dGet user "submitted").getD (Json.arr []) = Json.arr xs →
    get_user_details env username = dumps (Json.obj
      [("id", (dGet user "user_id").getD Json.null),
       ("karma", (dGet user "karma").getD Json.null),
       ("about", (dGet user "about").getD Json.null),
       ("total_items_submitted", Json.int (Int.ofNat xs.length))]) := by
  intro env username user xs henv hsub
  simp [get_user_details, henv, hsub, pyLen]

def c6User : List (String × Json) :=
  [("karma", Json.int 5), ("about", Json.str "hi"),
   ("submitted", Json.arr [Json.int 1, Json.int 2, Json.int 3])]

def c6Env : UserEnv := ⟨fun _ => Fetched.ok (some c6User)⟩

/-- Claim C6 (witness): for the record with karma 5, about "hi", three
submitted items and no `user_id`, the result is the exact JSON text with
a null id and `total_items_submitted` 3. -/
theorem C6_witness :
    get_user_details c6Env "jane"
      = "\x7b\"id\": null, \"karma\": 5, \"about\": \"hi\", \"total_items_submitted\": 3\x7d" :=
  (C6_user_projection c6Env "jane" c6User
    [Json.int 1, Json.int 2, Json.int 3] rfl rfl).trans (by decide)

/-- Claim C7: for every username for which the remote returns null,
`get_user_details` returns the serialized `User not found` object whose
message quotes that username. -/
theorem C7_user_not_found :
    ∀ (env : UserEnv) (username : String),
    env.user username = Fetched.ok none →
    get_user_details env username = dumps (userNotFoundObj username) := by
  intro env username h
  simp [get_user_details, h]

def c7Env : UserEnv := ⟨fun _ => Fetched.ok none⟩

/-- Claim C7 (witness): the nonexistent username of the claim yields the
exact not-found JSON text. -/
theorem C7_witness :
    get_user_details c7Env "this_user_should_not_exist_12345"
      = "\x7b\"error\": \"User not found\", \"message\": \"The user \x27this_user_should_not_exist_12345\x27 does not exist on Hacker News.\"\x7d" :=
  (C7_user_not_found c7Env "this_user_should_not_exist_12345" rfl).trans
    (by decide)

/-- Claim C8: whenever `think` succeeds, the `thoughts` entry of the
resulting session state is exactly the previous thought list (empty for a
null state or an absent key, which are initialized first) with the new
thought appended at the end; and on any fresh state — null, or without the
`thoughts` key — the call does succeed. -/
theorem C8_think_appends :
    ∀ (st : Option SessionState) (thought : String),
    (∀ st' r, think st thought = (st', Except.ok r) →
      dGet st' "thoughts"
        = some (PyObj.strList (sessionThoughts st ++ [thought])))
    ∧ ((st = none ∨ ∃ d, st = some d ∧ dContains d "thoughts" = false) →
      ∃ st' r, think st thought = (st', Except.ok r)) := by
  intro st thought
  cases st with
  | none =>
    constructor
    · intro st' r h
      rw [think_none_eq, Prod.mk.injEq] at h
      rw [← h.1]
      simp [dGet, sessionThoughts]
    · intro _
      exact ⟨_, _, think_none_eq thought⟩
  | some d =>
    cases hv : dGet d "thoughts" with
    | none =>
      constructor
      · intro st' r h
        rw [think_eq_of_absent d thought hv, Prod.mk.injEq] at h
        rw [← h.1, dGet_dSet_self]
        simp [sessionThoughts, hv]
      · intro _
        exact ⟨_, _, think_eq_of_absent d thought hv⟩
    | some val =>
      cases val with
      | strList ts =>
        constructor
        · intro st' r h
          rw [think_eq_of_list d ts thought hv, Prod.mk.injEq] at h
          rw [← h.1, dGet_dSet_self]
          simp [sessionThoughts, hv]
        · intro _
          exact ⟨_, _, think_eq_of_list d ts thought hv⟩
      | other g =>
        constructor
        · intro st' r h
          rw [think_eq_of_other d g thought hv, Prod.mk.injEq] at h
          exact absurd h.2 (by simp)
        · intro hfresh
          rcases hfresh with h | ⟨d2, hd2, hc⟩
          · exact absurd h (by simp)
          · obtain rfl : d = d2 := Option.some.inj hd2
            simp [dContains, hv] at hc

def c8State : SessionState :=
  [("k", PyObj.other 7), ("thoughts", PyObj.strList ["a"])]

/-- Claim C8 (witness): appending "b" to a state already holding the
thought list ["a"] leaves the list ["a", "b"], and a call on a null state
succeeds. -/
theorem C8_witness :
    dGet (think (some c8State) "b").1 "thoughts"
        = some (PyObj.strList (sessionThoughts (some c8State) ++ ["b"]))
    ∧ ∃ st' r, think none "a" = (st', Except.ok r) :=
  ⟨(C8_think_appends (some c8State) "b").1 (think (some c8State) "b").1
      (renderThoughts ["a", "b"]) rfl,
   (C8_think_appends none "a").2 (Or.inl rfl)⟩

/-- Claim C9: the `HackerNewsTools` constructor registers
`get_top_hackernews_stories` exactly when `all` or
`enable_get_top_stories` holds and `get_user_details` exactly when `all`
or `enable_get_user_details` holds; with `all` set, both are registered
regardless of the individual flags. -/
theorem C9_registration_flags :
    ∀ (enable_top enable_user allFlag : Bool),
    (("get_top_hackernews_stories" ∈ hnInitTools enable_top enable_user allFlag)
        ↔ (allFlag = true ∨ enable_top = true))
    ∧ (("get_user_details" ∈ hnInitTools enable_top enable_user allFlag)
        ↔ (allFlag = true ∨ enable_user = true))
    ∧ (allFlag = true →
        "get_top_hackernews_stories" ∈ hnInitTools enable_top enable_user allFlag
        ∧ "get_user_details" ∈ hnInitTools enable_top enable_user allFlag) := by
  intro enable_top enable_user allFlag
  cases enable_top <;> cases enable_user <;> cases allFlag <;> decide

/-- Claim C9 (witness): with both individual flags off and `all` on, both
operations are registered. -/
theorem C9_witness :
    "get_top_hackernews_stories" ∈ hnInitTools false false true
    ∧ "get_user_details" ∈ hnInitTools false false true :=
  (C9_registration_flags false false true).2.2 rfl

/-- Claim C10: a `think` call on a session-state mapping leaves every key
other than `thoughts` untouched: its lookup after the call equals its
lookup before, so no other entry is modified, added or removed. -/
theorem C10_think_frame :
    ∀ (d : SessionState) (thought k : String), k ≠ "thoughts" →
    dGet (think (some d) thought).1 k = dGet d k := by
  intro d thought k hk
  have hk2 : "thoughts" ≠ k := fun h => hk h.symm
  cases hv : dGet d "thoughts" with
  | none =>
    rw [think_eq_of_absent d thought hv]
    exact (dGet_dSet_ne _ "thoughts" k _ hk2).trans
      (dGet_dSet_ne d "thoughts" k _ hk2)
  | some val =>
    cases val with
    | strList ts =>
      rw [think_eq_of_list d ts thought hv]
      exact dGet_dSet_ne d "thoughts" k _ hk2
    | other g =>
      rw [think_eq_of_other d g thought hv]

/-- Claim C10 (witness): a key `x` of a concrete one-entry state maps to
the same value after a `think` call. -/
theorem C10_witness :
    dGet (think (some [("x", PyObj.other 7)]) "hm").1 "x"
        = dGet [("x", PyObj.other 7)] "x" :=
  C10_think_frame [("x", PyObj.other 7)] "hm" "x" (by decide)
